import Mathlib

/-!
Verification of the conversational cloud-agent core (`agent.service.ts`).

This file gives a shallow embedding of the pipeline implemented in
`src/agents/agent.service.ts` of the repository: per-turn context (CSP)
resolution, the `findAction` classifier wrapper, the `processAction`
executor, the `generateUnifiedResponse` synthesizer, menu generation, the
catalog matchers and the durable conversation store.  External effects
(the text-generation service, the AWS listing call, the example-value
generation call) are modelled as oracle inputs supplied to each turn; the
file system is modelled as an explicit value.  JavaScript truthiness of
the optional string / number fields the code tests with `||` and `&&` is
modelled explicitly.
-/

namespace AgentService

/-- JavaScript whitespace characters relevant to the `\s` character class
as used by the source's regexes (ASCII subset). -/
def wsChar (c : Char) : Bool :=
  c = ' ' ∨ c = '\t' ∨ c = '\n' ∨ c = '\r' ∨ c = '\x0b' ∨ c = '\x0c'

/-- Model of JS `toLowerCase` (ASCII range), kept kernel-reducible. -/
def toLowerS (s : String) : String :=
  String.mk (s.data.map Char.toLower)

/-- Model of JS `toUpperCase` (ASCII range). -/
def toUpperS (s : String) : String :=
  String.mk (s.data.map Char.toUpper)

/-- Model of JS `trim` over the modelled whitespace class. -/
def trimJs (s : String) : String :=
  String.mk ((s.data.dropWhile wsChar).reverse.dropWhile wsChar).reverse

/-- Split a character list at newline characters. -/
def splitLinesAux : List Char → List (List Char)
  | [] => [[]]
  | c :: cs =>
    match splitLinesAux cs with
    | [] => [[]]
    | line :: rest =>
      if c = '\n' then [] :: line :: rest else (c :: line) :: rest

/-- The newline-separated segments of a string. -/
def splitLines (s : String) : List (List Char) :=
  splitLinesAux s.data

/-- JS truthiness of an optional string field: present and non-empty. -/
def jsTruthyS (o : Option String) : Bool :=
  match o with
  | some s => s ≠ ""
  | none => false

/-- JS `a || b` for an optional string `a` against a plain string `b`. -/
def jsOrS (a : Option String) (b : String) : String :=
  if jsTruthyS a then a.getD "" else b

/-- JS `a || b` where both sides are optional strings. -/
def jsOrOptS (a b : Option String) : Option String :=
  if jsTruthyS a then a else b

/-- JS truthiness of an optional number field: present and non-zero. -/
def jsTruthyN (o : Option Nat) : Bool :=
  match o with
  | some n => n ≠ 0
  | none => false

/-- JS `a || b` for an optional number against a number (0 is falsy). -/
def jsOrN (a : Option Nat) (b : Nat) : Nat :=
  if jsTruthyN a then a.getD 0 else b

/-- Does the character list `p` occur as a contiguous sublist of `s`?
Model of JS `String.prototype.includes` over char lists. -/
def listIncludes (p s : List Char) : Bool :=
  (List.range (s.length + 1)).any (fun i => p.isPrefixOf (s.drop i))

/-- Model of JS `hay.includes(needle)` (case-sensitive substring test). -/
def strIncludes (hay needle : String) : Bool :=
  listIncludes needle.data hay.data

/-- Case-insensitive substring test (a regex literal with the `i` flag). -/
def containsCI (hay needle : String) : Bool :=
  listIncludes (toLowerS needle).data (toLowerS hay).data

/-- Model of JS `hay.startsWith(needle)` (case-sensitive). -/
def strStartsWith (hay needle : String) : Bool :=
  needle.data.isPrefixOf hay.data

/-- Collapse every maximal run of whitespace into a single space:
model of `.replace(/\s+/g, ' ')`. -/
def collapseWsAux : Bool → List Char → List Char
  | _, [] => []
  | prevWs, c :: cs =>
    if wsChar c then
      if prevWs then collapseWsAux true cs else ' ' :: collapseWsAux true cs
    else c :: collapseWsAux false cs

/-- Collapse every maximal run of whitespace into a single space:
model of `.replace(/\s+/g, ' ')`. -/
def collapseWs (l : List Char) : List Char :=
  collapseWsAux false l

/-- The name normalization shared by both catalog matchers
(`agent.service.ts` lines 114 and 611):
`str.trim().toLowerCase().replace(/\s+/g, ' ')`. -/
def normalize (s : String) : String :=
  String.mk (collapseWs (toLowerS (trimJs s)).data)

/-- The leftmost match of the regex `/(aws|azure|gcp|oracle)/i` in a
message, lowercased — model of `message.match(cspRegex)?.[0]?.toLowerCase()`
(`agent.service.ts` lines 1133-1134). -/
def findCspToken (message : String) : Option String :=
  let ls := (toLowerS message).data
  (List.range (ls.length + 1)).findSome? (fun i =>
    ["aws", "azure", "gcp", "oracle"].findSome? (fun t =>
      if t.data.isPrefixOf (ls.drop i) then some t else none))

/-- Numeric value of a digit run. -/
def digitsToNat (ds : List Char) : Nat :=
  ds.foldl (fun n c => 10 * n + (c.toNat - '0'.toNat)) 0

/-- Try the regex `/(\d+)\s+questions?/i` at the head of an
(already lowercased) character list. -/
def matchCountAt (l : List Char) : Option Nat :=
  let ds := l.takeWhile Char.isDigit
  if ds.isEmpty then none
  else
    let rest := l.drop ds.length
    let ws := rest.takeWhile wsChar
    if ws.isEmpty then none
    else if "question".data.isPrefixOf (rest.drop ws.length) then
      some (digitsToNat ds)
    else none

/-- The leftmost match of `/(\d+)\s+questions?/i` in a string, returning
the parsed count — model of the extraction at `agent.service.ts`
lines 222-225. -/
def matchCountQuestions (s : String) : Option Nat :=
  let ls := (toLowerS s).data
  (List.range (ls.length + 1)).findSome? (fun i => matchCountAt (ls.drop i))

/-- A required input field of a catalog entry (the `requiredFields`
elements of `ServiceConfig`, `agent.service.ts` lines 26-32). -/
structure RequiredField where
  fieldType : String
  fieldId : String
  fieldName : String
  fieldValue : String
  fieldTypeValue : String
deriving DecidableEq, Repr

/-- A catalog entry (`ServiceConfig`, `agent.service.ts` lines 22-33). -/
structure ServiceConfig where
  name : String
  description : String
  cloud : String
  requiredFields : List RequiredField
deriving DecidableEq, Repr

/-- The loaded catalog (`ServicesData`, `agent.service.ts` lines 35-37). -/
structure ServicesData where
  list : List ServiceConfig
deriving DecidableEq, Repr

/-- A required field enriched with a generated example
(`enhancedFields`, `agent.service.ts` lines 501-508). -/
structure EnhancedField where
  base : RequiredField
  exampleValue : String
  explanation : String
deriving DecidableEq, Repr

/-- The service object placed in a `service_found` response
(`agent.service.ts` lines 514-519). -/
structure EnhancedService where
  name : String
  description : String
  cloud : String
  requiredFields : List EnhancedField
deriving DecidableEq, Repr

/-- The open key-value payload of a classified action; fields the code
reads are modelled, each optional since the classifier may omit any.
`specifications` is carried as an opaque serialized string; `emptyObjStr`
stands for the literal empty-object default. -/
structure ActionPayload where
  service : Option String := none
  csp : Option String := none
  region : Option String := none
  specifications : Option String := none
  message : Option String := none
  questionCount : Option Nat := none
  resourceType : Option String := none
deriving DecidableEq, Repr

/-- The serialized empty object used for the `|| \x7b\x7d` defaults. -/
def emptyObjStr : String := "\x7b\x7d"

/-- A classified action: a type tag plus an optional payload
(`payload` can be absent in malformed classifier output, which the code
guards with `payload?.` in some places and not in others). -/
structure Action where
  actionType : String
  payload : Option ActionPayload := none
deriving DecidableEq, Repr

/-- The `service` property of a response object is dynamic in the
source: the synthesis fallback stores the service *name* from the action
payload (line 887) while the deploy branch stores the enriched service
*object* (lines 514-519). -/
inductive ServiceVal where
  | svcName (s : String)
  | svcObj (s : EnhancedService)
deriving DecidableEq, Repr

/-- The intermediate / final `response` object: the union of the fields
any branch of `processAction` or `generateUnifiedResponse` writes or
reads, all optional (the source builds plain dynamic objects). -/
structure RespObj where
  status : Option String := none
  message : Option String := none
  customMessage : Option String := none
  previousQuestions : Option (List String) := none
  questionCount : Option Nat := none
  availableServices : Option (List String) := none
  service : Option ServiceVal := none
  details : Option ActionPayload := none
  resourceType : Option String := none
  csp : Option String := none
  cspOptions : Option (List String) := none
  availableServicesPerCsp : Option (List (String × List String)) := none
  menu : Option (List String) := none
  region : Option String := none
  specifications : Option String := none
deriving DecidableEq, Repr

/-- The final structured reply `\x7b role, workflow, response \x7d`. -/
structure FinalResponse where
  role : String
  workflow : String
  response : RespObj
deriving DecidableEq, Repr

/-- Content of a stored history turn: a plain string for human turns, or
the reply object (possibly null after the re-entry path) for assistant
turns. -/
inductive HistContent where
  | str (s : String)
  | reply (r : Option FinalResponse)
deriving DecidableEq, Repr

/-- Model of `JSON.stringify` on a non-string turn content (only its
injectivity on the data matters; human turns are strings in every
reachable state, so this encoder is never applied on the paths the
claims exercise). -/
def HistContent.asString : HistContent → String
  | .str s => s
  | .reply r => toString (repr r)

/-- A stored history turn (`\x7b role, content, timestamp \x7d`). -/
structure HistEntry where
  role : String
  content : HistContent
  timestamp : String
deriving DecidableEq, Repr

/-- A per-user conversation record: the stored context and the turn
history (`agent.service.ts` lines 1149-1154). -/
structure Conversation where
  csp : Option String
  history : List HistEntry
deriving DecidableEq, Repr

/-- The pipeline state threaded through the workflow nodes
(`CloudState`, `agent.service.ts` lines 12-20). -/
structure CloudState where
  conversationHistory : List HistEntry
  query : String
  action : Option Action
  csp : Option String
  response : Option RespObj
  finalResponse : Option FinalResponse := none
  event : Option String := none
deriving DecidableEq, Repr

/-- Order-preserving de-duplication keeping first occurrences: model of
`[...new Set(xs)]` in JS. -/
def dedupFirstAux (seen : List String) : List String → List String
  | [] => []
  | x :: xs =>
    if seen.contains x then dedupFirstAux seen xs
    else x :: dedupFirstAux (x :: seen) xs

/-- Order-preserving de-duplication keeping first occurrences: model of
`[...new Set(xs)]` in JS. -/
def dedupFirst (l : List String) : List String :=
  dedupFirstAux [] l

/-- The stringified contents of the human turns of a history, in order
(the `filter(role === 'human').map(content...)` idiom used at
`agent.service.ts` lines 458-461 and 873-876). -/
def humanContents (hist : List HistEntry) : List String :=
  (hist.filter (fun e => e.role = "human")).map (fun e => e.content.asString)

/-- Menu generation (`getMenuForCSP`, `agent.service.ts` lines 924-958):
filters the catalog to the given context and appends the fixed
context-specific tail options. -/
def getMenuForCSP (sd : Option ServicesData) (csp : String) (friendly : Bool) :
    List String :=
  match sd with
  | none => ["No services data available."]
  | some d =>
    let cspLower := toLowerS csp
    let services := d.list.filter (fun s => s.cloud = cspLower)
    if friendly then
      services.map (fun s => "Provision or manage a " ++ s.name) ++
      (if cspLower = "aws" then
        ["View AWS security groups", "Ask general questions about AWS"]
      else if cspLower = "azure" then
        ["Ask general questions about Azure services", "Get help with Azure resources"]
      else if cspLower = "gcp" then
        ["Ask general questions about Google Cloud", "Get help with GCP resources"]
      else if cspLower = "oracle" then
        ["Ask general questions about Oracle Cloud", "Get help with Oracle Cloud resources"]
      else [])
    else
      services.map (fun s => "Provision a " ++ s.name) ++
      (if cspLower = "aws" then
        ["List the security groups", "Ask general questions about AWS"]
      else if cspLower = "azure" then ["Ask general questions about Azure"]
      else if cspLower = "gcp" then ["Ask general questions about GCP"]
      else if cspLower = "oracle" then ["Ask general questions about Oracle Cloud"]
      else [])

/-- The `details` part of the analysis object given to
`findMatchingService` (only the `service` property is read). -/
structure AnalysisDetails where
  service : Option String := none
deriving DecidableEq, Repr

/-- The analysis object destructured by `findMatchingService`
(`const \x7b details, csp \x7d = analysis`). -/
structure Analysis where
  details : Option AnalysisDetails := none
  csp : Option String := none
deriving DecidableEq, Repr

/-- Catalog lookup by exact normalized name equality plus cloud equality
(`findMatchingService`, `agent.service.ts` lines 106-131).  A falsy
(absent or empty after normalization) service name or cloud provider
yields no match. -/
def findMatchingService (sd : Option ServicesData) (analysis : Option Analysis) :
    Option ServiceConfig :=
  match sd, analysis with
  | none, _ => none
  | _, none => none
  | some d, some a =>
    let serviceName : Option String :=
      (a.details.bind (fun dt => dt.service)).map normalize
    let cloudProvider : Option String := a.csp.map toLowerS
    if jsTruthyS serviceName ∧ jsTruthyS cloudProvider then
      (d.list.find? (fun svc =>
        normalize svc.name = serviceName.getD "" ∧
        toLowerS svc.cloud = cloudProvider.getD ""))
    else none

/-- Catalog lookup by normalized-name substring containment plus cloud
equality (`findMatchingServiceByName`, `agent.service.ts` lines 607-620):
the entry matches when its normalized name *contains* the normalized
requested name; a falsy csp argument defaults to `aws`. -/
def findMatchingServiceByName (sd : Option ServicesData) (serviceName : String)
    (csp : Option String) : Option ServiceConfig :=
  match sd with
  | none => none
  | some d =>
    let normalizedServiceName := normalize serviceName
    let normalizedCsp := if jsTruthyS csp then normalize (csp.getD "") else "aws"
    d.list.find? (fun svc =>
      strIncludes (normalize svc.name) normalizedServiceName ∧
      toLowerS svc.cloud = normalizedCsp)

/-- The conversation-history intent regex of `generateUnifiedResponse`
(`agent.service.ts` line 627):
`/what.*asked|conversation.*history|previous.*questions|questions.*so far|history|recap|summarize.*conversation|how many.*questions|number of questions/i`.
A two-literal alternative `a.*b` matches when some newline-free span
contains `a` followed by `b` (the JS dot does not cross newlines). -/
def followedByInLine (a b : List Char) (l : List Char) : Bool :=
  (List.range (l.length + 1)).any (fun i =>
    a.isPrefixOf (l.drop i) ∧ listIncludes b (l.drop (i + a.length)))

/-- Whether the alternative `a.*b` of a case-insensitive regex matches
the string (checked per newline-separated segment). -/
def matchDotStar (a b : String) (s : String) : Bool :=
  (splitLines (toLowerS s)).any (fun line =>
    followedByInLine a.data b.data line)

/-- Model of `isConversationHistoryQuery` (`agent.service.ts` line 627). -/
def isConvHistoryQuery (q : String) : Bool :=
  matchDotStar "what" "asked" q ∨
  matchDotStar "conversation" "history" q ∨
  matchDotStar "previous" "questions" q ∨
  matchDotStar "questions" "so far" q ∨
  containsCI q "history" ∨
  containsCI q "recap" ∨
  matchDotStar "summarize" "conversation" q ∨
  matchDotStar "how many" "questions" q ∨
  containsCI q "number of questions"

/-- Modelled from the spec: the greeting pattern of the IntentRouter is
absent from the source (`processMessage` contains no greeting branch);
the spec describes it as a small closed set of greeting tokens matched
case-insensitively against the whole message. -/
def matchesGreeting (m : String) : Bool :=
  ["hi", "hello", "hey", "good morning", "good afternoon", "good evening"].contains
    (toLowerS (trimJs m))

/-- The node sequence of the compiled LangGraph workflow
(`agent.service.ts` lines 82-92: START → findAction → processAction →
generateUnifiedResponse → END). -/
def workflowNodeSequence : List String :=
  ["findAction", "processAction", "generateUnifiedResponse"]

/-- The stages a turn of `processMessage` executes: the form-data
deployment branch (lines 1041-1128) returns before the workflow; every
other turn invokes the compiled workflow (line 1174), whose node
sequence starts with the `findAction` classification call.  No branch of
`processMessage` inspects the message text to skip the workflow. -/
def turnStages (hasFormData : Bool) : List String :=
  if hasFormData then ["deployFormData"] else workflowNodeSequence

/-- Per-turn context resolution (`agent.service.ts` lines 1130-1146):
message token > truthy caller parameter (lowercased) > truthy stored
context > `aws`. -/
def resolveUserCSP (message : String) (cspParam : Option String)
    (conv0 : Option Conversation) : String :=
  let userCSP : Option String :=
    match findCspToken message with
    | some t => some t
    | none =>
      if jsTruthyS cspParam then some (toLowerS (cspParam.getD ""))
      else
        match conv0 with
        | some c => jsOrOptS c.csp cspParam
        | none => some "aws"
  match userCSP with
  | some s => if s = "" then "aws" else s
  | none => "aws"

/-- The `response` object of a classifier reply that came back in the
complete-reply shape (the fields `findAction` reads at lines 237-243). -/
structure ClassifyResp where
  service : Option String := none
  csp : Option String := none
  region : Option String := none
  specifications : Option String := none
  message : Option String := none
  previousQuestions : Option (List String) := none
deriving DecidableEq, Repr

/-- The parsed JSON of the classification call, restricted to the
properties `findAction` inspects. -/
structure ClassifyJson where
  role : Option String := none
  workflow : Option String := none
  response : Option ClassifyResp := none
  action : Option Action := none
deriving DecidableEq, Repr

/-- Outcome of the external classification call: the call throws, or
returns text that fails `JSON.parse`, or parses to an object. -/
inductive ClassifyOutcome where
  | throws
  | unparseable (raw : String)
  | parsed (j : ClassifyJson)
deriving DecidableEq, Repr

/-- The workflow-label → action-type mapping of the degraded
complete-reply branch (`agent.service.ts` lines 203-216). -/
def workflowToActionType (w : Option String) : String :=
  if w = some "conversationSummary" then "CONVERSATION_SUMMARY"
  else if w = some "deployService" then "DEPLOY"
  else if w = some "configureService" then "CONFIGURE"
  else if w = some "listResources" then "LIST_RESOURCES"
  else if w = some "viewCspOptions" then "VIEW_CSP_OPTIONS"
  else if w = some "selectCsp" then "SELECT_CSP"
  else "GENERAL_RESPONSE"

/-- The fallback action used whenever classification cannot produce a
structured action (`agent.service.ts` lines 275-283, 289-298, 302-310). -/
def fallbackGeneralAction (query : String) : Action :=
  { actionType := "GENERAL_RESPONSE", payload := some { message := some query } }

/-- The classifier wrapper (`findAction`, `agent.service.ts` lines
138-312).  A thrown call or unparseable output falls back to a
`GENERAL_RESPONSE` action carrying the raw query; a parsed complete-reply
shape (role `assistant` with truthy workflow and a response object) is
converted into a synthetic action via the workflow label; a parsed object
with an `action` property is taken as is (lowercasing any csp hint into
the state); anything else falls back to `GENERAL_RESPONSE`. -/
def findAction (st : CloudState) (o : ClassifyOutcome) : CloudState :=
  match o with
  | .throws => { st with action := some (fallbackGeneralAction st.query) }
  | .unparseable _ => { st with action := some (fallbackGeneralAction st.query) }
  | .parsed j =>
    if j.role = some "assistant" ∧ jsTruthyS j.workflow ∧ j.response.isSome then
      let r := j.response.getD {}
      let actionType := workflowToActionType j.workflow
      let qc1 : Option Nat := r.message.bind matchCountQuestions
      let questionCount : Option Nat :=
        if actionType = "CONVERSATION_SUMMARY" then
          if ¬ jsTruthyN qc1 ∧ r.previousQuestions.isSome then
            some (r.previousQuestions.getD []).length
          else qc1
        else none
      let actionObject : Action :=
        { actionType := actionType,
          payload := some
            { service := r.service,
              csp := if jsTruthyS r.csp then r.csp else st.csp,
              region := r.region,
              specifications := some (jsOrS r.specifications emptyObjStr),
              message := r.message,
              questionCount := questionCount } }
      let updatedCsp :=
        if jsTruthyS r.csp then some (toLowerS (r.csp.getD "")) else st.csp
      { st with action := some actionObject, csp := updatedCsp }
    else if j.action.isSome then
      let payloadCsp := (j.action.getD { actionType := "" }).payload.bind (fun p => p.csp)
      let updatedCsp :=
        if jsTruthyS payloadCsp then some (toLowerS (payloadCsp.getD "")) else st.csp
      { st with action := j.action, csp := updatedCsp }
    else { st with action := some (fallbackGeneralAction st.query) }

/-- One field of the example-value generation output. -/
structure ExampleField where
  fieldId : String
  exampleValue : Option String := none
  explanation : Option String := none
deriving DecidableEq, Repr

/-- Outcome of the example-value generation call
(`generateExampleValues`, `agent.service.ts` lines 335-397): a throwing
call or unparseable output is recovered locally with empty defaults; a
parse that yields an object without a usable `fields` array makes the
caller dereference `undefined` and throw; otherwise the parsed fields
are used. -/
inductive ExampleOutcome where
  | throws
  | unparseable
  | missingFields
  | fields (fs : List ExampleField)
deriving DecidableEq, Repr

/-- Model of `generateExampleValues` as seen by its caller: the returned
`fields` array, or the error caused by a parsed object with no `fields`
property (the TypeError is raised at the call site `exampleValues.fields`,
`agent.service.ts` line 502, and propagates out of the executor). -/
def generateExampleValues (svc : ServiceConfig) (o : ExampleOutcome) :
    Except Unit (List ExampleField) :=
  let defaults := svc.requiredFields.map (fun f =>
    { fieldId := f.fieldId, exampleValue := some "",
      explanation := some "Please provide a value appropriate for this field." : ExampleField })
  match o with
  | .throws => .ok defaults
  | .unparseable => .ok defaults
  | .missingFields => .error ()
  | .fields fs => .ok fs

/-- The parsed JSON of the second (synthesis) model call, restricted to
the properties `generateUnifiedResponse` inspects.  `firstStringProp`
abstracts the first non-empty string-valued property found by the
`Object.entries` scan at lines 826-831 and `stringified` abstracts
`JSON.stringify` of the whole object (line 834). -/
structure SynthJson where
  role : Option String := none
  workflow : Option String := none
  response : Option RespObj := none
  answer : Option String := none
  firstStringProp : Option String := none
  stringified : String := ""
deriving DecidableEq, Repr

/-- Outcome of the synthesis model call: thrown call, unparseable text
(recovered as `\x7b answer: raw \x7d`), a parsed JSON `null` (whose
property access throws into the inner catch), a non-null JSON primitive,
or a parsed object. -/
inductive SynthOutcome where
  | throws
  | unparseable (raw : String)
  | nullLit
  | primitive (raw : String)
  | parsed (j : SynthJson)
deriving DecidableEq, Repr

/-- The oracle for the external effects of one turn: the classification
call, the example-value call, the synthesis call, and the AWS
security-group listing (which itself never throws: it returns a listing
or error string, `agent.service.ts` lines 961-977). -/
structure Oracle where
  classify : ClassifyOutcome
  examples : ExampleOutcome := .throws
  synth : SynthOutcome := .throws
  securityGroups : String := "No security groups found."
deriving DecidableEq, Repr

/-- Replace the first occurrence of `pat` with the empty string
(model of `.replace(' cloud', '')`, `agent.service.ts` line 575). -/
def replaceFirstList (pat : List Char) : List Char → List Char
  | [] => []
  | c :: cs =>
    if pat.isPrefixOf (c :: cs) then (c :: cs).drop pat.length
    else c :: replaceFirstList pat cs

/-- String version of `replaceFirstList`. -/
def replaceFirstWithEmpty (s pat : String) : String :=
  String.mk (replaceFirstList pat.data s.data)

/-- Number of human turns in a history. -/
def humanCount (hist : List HistEntry) : Nat :=
  (hist.filter (fun e => e.role = "human")).length

/-- The `CONVERSATION_SUMMARY` branch of the executor
(`agent.service.ts` lines 415-489): keeps a well-formed classifier
message, else answers count queries from the payload count or the human
turn count minus one; exits early when a previous-questions response
already exists; otherwise de-duplicates the human turns, drops the last
(current) one and builds the summary response.  A missing payload makes
`action.payload.message` throw into the branch catch (lines 481-488).
Returns the custom message and the updated state. -/
def processSummaryBranch (st : CloudState) (action : Action) :
    String × CloudState :=
  match action.payload with
  | none =>
    let msg := "I apologize, but I encountered an error retrieving your conversation history."
    (msg, { st with response := some { status := some "error", message := some msg } })
  | some payload =>
    let customResponse0 : String :=
      if jsTruthyS payload.message ∧
         ¬ strStartsWith (payload.message.getD "") "You have asked" ∧
         ¬ strIncludes (payload.message.getD "") "summary" then
        payload.message.getD ""
      else
        let target := jsOrS payload.message st.query
        if containsCI target "how many" ∨ containsCI target "number of" then
          let count : Int :=
            if jsTruthyN payload.questionCount then (payload.questionCount.getD 0 : Int)
            else (humanCount st.conversationHistory : Int) - 1
          "You have asked " ++ toString count ++ " questions so far."
        else "Here\x27s a summary of our conversation so far:"
    let st1 := { st with event := some "conversation_summarized" }
    match st.response with
    | some r =>
      if r.previousQuestions.isSome then
        let finalMessage := jsOrS r.message customResponse0
        (customResponse0,
         { st1 with response := some (
             { r with
                 status := some "conversation_summarized",
                 message := some finalMessage }) })
      else
        let humanMessages := dedupFirst (humanContents st.conversationHistory)
        let previousQuestions := humanMessages.dropLast
        let actualCount := previousQuestions.length
        let customResponse :=
          if customResponse0 ≠ "" then customResponse0
          else jsOrS payload.message
            (if actualCount > 0 then
              "You have asked " ++ toString actualCount ++ " questions so far."
            else "This is your first question.")
        (customResponse,
         { st1 with response := some (
             { status := some "conversation_summarized", message := some customResponse,
               previousQuestions := some previousQuestions,
               questionCount := some (jsOrN payload.questionCount actualCount) }) })
    | none =>
      let humanMessages := dedupFirst (humanContents st.conversationHistory)
      let previousQuestions := humanMessages.dropLast
      let actualCount := previousQuestions.length
      let customResponse :=
        if customResponse0 ≠ "" then customResponse0
        else jsOrS payload.message
          (if actualCount > 0 then
            "You have asked " ++ toString actualCount ++ " questions so far."
          else "This is your first question.")
      (customResponse,
       { st1 with response := some (
           { status := some "conversation_summarized", message := some customResponse,
             previousQuestions := some previousQuestions,
             questionCount := some (jsOrN payload.questionCount actualCount) }) })

/-- The switch body of `processAction` (`agent.service.ts` lines
410-596), producing the custom response text together with the updated
state, or an uncaught TypeError (destructuring a missing payload in the
DEPLOY / LIST_RESOURCES / SELECT_CSP branches). -/
def processActionCore (st : CloudState) (action : Action) (o : Oracle)
    (sd : Option ServicesData) : Except Unit (String × CloudState) :=
  if action.actionType = "GENERAL_RESPONSE" then .ok ("", st)
  else if action.actionType = "CONVERSATION_SUMMARY" then
    .ok (processSummaryBranch st action)
  else if action.actionType = "DEPLOY" then
    match action.payload with
    | none => .error ()
    | some payload =>
      if jsTruthyS payload.service then
        match findMatchingServiceByName sd (payload.service.getD "") st.csp with
        | some ms =>
          (generateExampleValues ms o.examples).map (fun exFields =>
            let enhancedFields := ms.requiredFields.map (fun f =>
              let ef := exFields.find? (fun e => e.fieldId = f.fieldId)
              { base := f,
                exampleValue := jsOrS (ef.bind (fun e => e.exampleValue)) "",
                explanation := jsOrS (ef.bind (fun e => e.explanation)) "" : EnhancedField })
            ("", { st with
              response := some
                { status := some "service_found",
                  message := some ("Found service configuration for " ++ ms.name ++
                    " on " ++ toUpperS ms.cloud),
                  service := some (.svcObj
                    { name := ms.name, description := ms.description,
                      cloud := ms.cloud, requiredFields := enhancedFields }),
                  details := some payload },
              event := some "service_configuration" }))
        | none =>
          let availableServices :=
            match sd with
            | some d => (d.list.filter
                (fun s => s.cloud = toLowerS (jsOrS st.csp "aws"))).map (fun s => s.name)
            | none => []
          let msg := "Sorry, the " ++ payload.service.getD "" ++
            " service is currently not available to provision in " ++
            toUpperS (jsOrS st.csp "aws") ++ ". Please select from the available services."
          .ok (msg, { st with
            event := some "service_not_found",
            response := some (
              { status := some "service_not_found",
                availableServices := some availableServices, message := some msg }) })
      else .ok ("", st)
  else if action.actionType = "LIST_RESOURCES" then
    match action.payload with
    | none => .error ()
    | some payload =>
      if jsTruthyS payload.resourceType ∧
         strIncludes (toLowerS (payload.resourceType.getD "")) "security group" ∧
         st.csp = some "aws" then
        let sgList := o.securityGroups
        .ok (sgList, { st with
          event := some "resources_listed",
          response := some (
            { status := some "resources_listed",
              message := some sgList, resourceType := payload.resourceType }) })
      else .ok ("", st)
  else if action.actionType = "SELECT_CSP" then
    match action.payload with
    | none => .error ()
    | some payload =>
      if jsTruthyS payload.csp then
        let sel := payload.csp.getD ""
        let msg := "You have selected " ++ toUpperS sel ++
          " as your Cloud Service Provider."
        .ok (msg, { st with
          csp := some (toLowerS sel), event := some "csp_selected",
          response := some (
            { status := some "csp_selected", message := some msg,
              csp := some (toLowerS sel) }) })
      else .ok ("", st)
  else if action.actionType = "VIEW_CSP_OPTIONS" then
    let cspOptions := ["AWS", "Azure", "GCP", "Oracle Cloud"]
    let availableServicesPerCsp : List (String × List String) :=
      match sd with
      | some d => cspOptions.map (fun co =>
          let cspLower := replaceFirstWithEmpty (toLowerS co) " cloud"
          (co, (d.list.filter (fun s => s.cloud = cspLower)).map (fun s => s.name)))
      | none => []
    let msg := "Here are the available cloud service providers:"
    .ok (msg, { st with
      event := some "csp_options_shown",
      response := some (
        { status := some "csp_options_shown", message := some msg,
          cspOptions := some cspOptions,
          availableServicesPerCsp := some availableServicesPerCsp }) })
  else .ok ("", st)

/-- The executor (`processAction`, `agent.service.ts` lines 399-604):
dispatches on the action type, then attaches a non-empty custom message
to the response object (a TypeError if no response object exists at that
point, which no reachable branch produces). -/
def processAction (st : CloudState) (o : Oracle) (sd : Option ServicesData) :
    Except Unit CloudState :=
  match st.action with
  | none => .ok st
  | some action =>
    match processActionCore st action o sd with
    | .error e => .error e
    | .ok (customResponse, upd) =>
      if customResponse ≠ "" then
        match upd.response with
        | some r => .ok { upd with response := some { r with customMessage := some customResponse } }
        | none => .error ()
      else .ok upd

/-- The corrective summarize action installed by the synthesizer before
re-running the executor (`agent.service.ts` lines 631-636). -/
def summaryAction (query : String) : Action :=
  { actionType := "CONVERSATION_SUMMARY", payload := some { message := some query } }

/-- The apology text used for synthesis failures
(`agent.service.ts` lines 900, 904). -/
def synthErrMsg : String :=
  "I apologize, but I encountered an error processing your request. Could you please try again or rephrase your question?"

/-- Model of `createErrorResponse` (`agent.service.ts` lines 909-921). -/
def createErrorResponse (st : CloudState) (message : String)
    (sd : Option ServicesData) : CloudState :=
  { st with finalResponse := some (
      { role := "assistant", workflow := "errorResponse",
        response := { message := some message,
                      menu := some (getMenuForCSP sd (jsOrS st.csp "aws") true) } }) }

/-- Model of `JSON.stringify` of the synthetic object `\x7b answer: raw \x7d`
built when the synthesis output fails to parse (line 812). -/
def stringifyAnswerObj (raw : String) : String :=
  "\x7b\x22answer\x22:\x22" ++ raw ++ "\x22\x7d"

/-- The tail of `generateUnifiedResponse` after the structured-response
checks: the fallback extraction chain for the reply message (lines
816-839) and the assembly of the final response object (lines 841-895). -/
def finishSynth (st : CloudState) (sd : Option ServicesData) (isCHQ : Bool)
    (j : SynthJson) : CloudState :=
  let responseMessage :=
    if jsTruthyS j.answer then j.answer.getD ""
    else if (match j.response with | some r => jsTruthyS r.message | none => false) = true then
      (j.response.getD {}).message.getD ""
    else
      match j.firstStringProp with
      | some s => s
      | none => j.stringified
  let workflowType :=
    if isCHQ then "conversationSummary"
    else
      match st.action with
      | some a =>
        if a.actionType = "GENERAL_RESPONSE" then "generalResponse"
        else if a.actionType = "DEPLOY" then "deployService"
        else if a.actionType = "CONFIGURE" then "configureService"
        else if a.actionType = "LIST_RESOURCES" then "listResources"
        else if a.actionType = "VIEW_CSP_OPTIONS" then "viewCspOptions"
        else if a.actionType = "SELECT_CSP" then "selectCsp"
        else "generalResponse"
      | none => "generalResponse"
  let payloadOpt := st.action.bind (fun a => a.payload)
  let msgCsp :=
    match payloadOpt with
    | some p => jsOrOptS p.csp st.csp
    | none => st.csp
  let msgService :=
    match payloadOpt with
    | some p => if jsTruthyS p.service then p.service else none
    | none => none
  let msgRegion :=
    match payloadOpt with
    | some p => if jsTruthyS p.region then p.region else none
    | none => none
  let msgSpecs :=
    match payloadOpt with
    | some p => jsOrS p.specifications emptyObjStr
    | none => emptyObjStr
  let previousQuestions :=
    if isCHQ then some (humanContents st.conversationHistory).dropLast else none
  { st with finalResponse := some (
      { role := "assistant", workflow := workflowType,
        response := { message := some responseMessage,
                      service := msgService.map ServiceVal.svcName,
                      csp := msgCsp,
                      region := msgRegion,
                      specifications := some msgSpecs,
                      previousQuestions := previousQuestions,
                      menu := some (getMenuForCSP sd (jsOrS msgCsp "aws") true) } }) }

/-- The synthesizer body after the re-entry check
(`agent.service.ts` lines 641-906): the processed-summary short-circuit,
the custom-message path, the `service_found` rendering, and otherwise the
second model call with its structured-response checks, fallback
extraction, and error recovery. -/
def generateUnifiedResponseCore (st : CloudState) (o : Oracle)
    (sd : Option ServicesData) (isCHQ : Bool) : Except Unit CloudState :=
  let menuNow := getMenuForCSP sd (jsOrS st.csp "aws") true
  if (match st.action with
      | some a => a.actionType == "CONVERSATION_SUMMARY"
      | none => false) &&
     (match st.response with
      | some r => r.previousQuestions.isSome || jsTruthyN r.questionCount
      | none => false) then
    let r := st.response.getD {}
    .ok { st with finalResponse := some (
        { role := "assistant", workflow := "conversationSummary",
          response := { r with menu := some menuNow } }) }
  else if (match st.response with
           | some r => jsTruthyS r.customMessage
           | none => false) = true then
    let r := st.response.getD {}
    .ok { st with finalResponse := some (
        { role := "assistant", workflow := jsOrS r.status "customResponse",
          response := { r with
                        message := r.message.orElse (fun _ => r.customMessage),
                        menu := some menuNow } }) }
  else if (match st.response with
           | some r => r.status == some "service_found"
           | none => false) then
    let r := st.response.getD {}
    match r.service with
    | some (.svcObj svc) =>
      .ok { st with finalResponse := some (
          { role := "assistant", workflow := "serviceConfiguration",
            response := { message := some ("To provision " ++ svc.name ++ " on " ++
                            toUpperS svc.cloud ++ ", please provide the following information:"),
                          service := some (.svcObj svc),
                          details := r.details,
                          menu := some menuNow } }) }
    | _ => .error ()
  else
    match o.synth with
    | .throws => .ok (createErrorResponse st synthErrMsg sd)
    | .nullLit => .ok (createErrorResponse st synthErrMsg sd)
    | .unparseable raw =>
      .ok (finishSynth st sd isCHQ
        { answer := some raw,
          firstStringProp := if raw = "" then none else some raw,
          stringified := stringifyAnswerObj raw })
    | .primitive raw =>
      .ok (finishSynth st sd isCHQ
        { answer := none, firstStringProp := none, stringified := raw })
    | .parsed j =>
      if isCHQ && j.role == some "assistant" && j.workflow == some "conversationSummary" &&
         j.response.isSome then
        let r := j.response.getD {}
        let r2 := if r.menu.isSome then r else { r with menu := some menuNow }
        .ok { st with finalResponse := some (
            { role := "assistant", workflow := "conversationSummary", response := r2 }) }
      else if j.role == some "assistant" && jsTruthyS j.workflow && j.response.isSome &&
              (j.response.getD {}).message.isSome then
        let r := j.response.getD {}
        let r2 := if r.menu.isSome then r else { r with menu := some menuNow }
        .ok { st with finalResponse := some (
            { role := "assistant", workflow := j.workflow.getD "", response := r2 }) }
      else .ok (finishSynth st sd isCHQ j)

/-- The synthesizer (`generateUnifiedResponse`, lines 622-906),
instrumented with the number of executor invocations it performs: the
conversation-history correction (lines 630-639) replaces the action with
a summarize action and returns the executor output directly (one
invocation); every other path performs none. -/
def generateUnifiedResponseI (st : CloudState) (o : Oracle)
    (sd : Option ServicesData) : Except Unit CloudState × Nat :=
  if isConvHistoryQuery st.query &&
     (match st.action with
      | none => true
      | some a => a.actionType != "CONVERSATION_SUMMARY") then
    (processAction { st with action := some (summaryAction st.query) } o sd, 1)
  else
    (generateUnifiedResponseCore st o sd (isConvHistoryQuery st.query), 0)

/-- The synthesizer without the instrumentation counter. -/
def generateUnifiedResponse (st : CloudState) (o : Oracle)
    (sd : Option ServicesData) : Except Unit CloudState :=
  (generateUnifiedResponseI st o sd).1

/-- One pass of the compiled workflow (START → findAction →
processAction → generateUnifiedResponse → END, lines 82-92). -/
def runWorkflow (st : CloudState) (o : Oracle) (sd : Option ServicesData) :
    Except Unit CloudState :=
  match processAction (findAction st o.classify) o sd with
  | .error e => .error e
  | .ok st1 => generateUnifiedResponse st1 o sd

/-- A turn of `processMessage` without form data (`agent.service.ts`
lines 1130-1214): resolve the context, create or load the conversation,
append the human turn, run the workflow, overwrite the reply menu with
the menu for the final in-flight context, append the assistant turn
(the reply object, or null when the workflow produced none) and return
the reply together with the conversation to be persisted.  A workflow
exception produces the fixed error reply. -/
def processMessage (conv0 : Option Conversation) (message : String)
    (cspParam : Option String) (ts : String) (o : Oracle)
    (sd : Option ServicesData) : Option FinalResponse × Conversation :=
  let userCSP := resolveUserCSP message cspParam conv0
  let conv1 : Conversation :=
    match conv0 with
    | some c => c
    | none => { csp := some userCSP, history := [] }
  let conv2 := { conv1 with history := conv1.history ++
    ([{ role := "human", content := .str message, timestamp := ts }] : List HistEntry) }
  let st0 : CloudState :=
    { conversationHistory := conv2.history, query := message,
      action := none, csp := some userCSP, response := none }
  match runWorkflow st0 o sd with
  | .ok st =>
    let fr := st.finalResponse.map (fun f =>
      { f with response := { f.response with
          menu := some (getMenuForCSP sd (jsOrS st.csp "aws") true) } })
    (fr, { conv2 with history := conv2.history ++
      ([{ role := "assistant", content := .reply fr, timestamp := ts }] : List HistEntry) })
  | .error _ =>
    let er : FinalResponse :=
      { role := "assistant", workflow := "error",
        response := { message := some "Sorry, I encountered an error processing your request. Please try again.",
                      menu := some (getMenuForCSP sd
                        (if userCSP = "" then "aws" else userCSP) true) } }
    (some er, { conv2 with history := conv2.history ++
      ([{ role := "assistant", content := .reply (some er), timestamp := ts }] : List HistEntry) })

/-- Model of `loadAllConversationsFromFile` (`agent.service.ts` lines 980-990):
a missing or unreadable durable file is treated as the empty
collection. -/
def loadAllConversationsFromFile
    (file : Option (List (String × Conversation))) : List (String × Conversation) :=
  file.getD []

/-- JS object key assignment `all[userId] = conversation`: replace the
value at an existing key in place, else append the entry. -/
def setKey (m : List (String × Conversation)) (k : String) (v : Conversation) :
    List (String × Conversation) :=
  if m.any (fun p => p.1 = k) then
    m.map (fun p => if p.1 = k then (k, v) else p)
  else m ++ [(k, v)]

/-- Model of `saveUserConversation` (`agent.service.ts` lines 1006-1016): re-read
the collection, overwrite the single user record, rewrite the whole
collection. -/
def saveUserConversation (userId : String) (conversation : Conversation)
    (file : Option (List (String × Conversation))) : List (String × Conversation) :=
  setKey (loadAllConversationsFromFile file) userId conversation

/-- Model of `getConversationByUserId` (`agent.service.ts` lines 1228-1231). -/
def getConversationByUserId (file : Option (List (String × Conversation)))
    (userId : String) : Option Conversation :=
  (loadAllConversationsFromFile file).lookup userId

/-! ## Concrete fixtures used by counterexamples and witnesses -/

/-- A one-entry catalog: a Virtual Machine offering on aws. -/
def svcVM : ServiceConfig :=
  { name := "Virtual Machine", description := "A vm", cloud := "aws", requiredFields := [] }

/-- A catalog snapshot holding only `svcVM`. -/
def sd0 : ServicesData := { list := [svcVM] }

/-- A human history turn with the given content. -/
def humanTurn (s : String) : HistEntry :=
  { role := "human", content := .str s, timestamp := "t" }

/-- An assistant history turn (content irrelevant to the claims). -/
def assistantTurn : HistEntry :=
  { role := "assistant", content := .reply none, timestamp := "t" }

/-- A stored conversation for an existing user with context aws. -/
def convA : Conversation := { csp := some "aws", history := [] }

/-! ## Supporting lemmas -/

theorem toLowerS_eq_empty_iff (s : String) : toLowerS s = "" ↔ s = "" := by
  cases s with
  | mk data =>
    simp [toLowerS, String.ext_iff]

theorem findCspToken_mem (m t : String) (h : findCspToken m = some t) :
    t ∈ ["aws", "azure", "gcp", "oracle"] := by
  unfold findCspToken at h
  obtain ⟨i, _, hi⟩ := List.exists_of_findSome?_eq_some h
  obtain ⟨tok, htok, hf⟩ := List.exists_of_findSome?_eq_some hi
  by_cases hp : tok.data.isPrefixOf (((toLowerS m).data).drop i) = true
  · simp [hp] at hf
    exact hf ▸ htok
  · simp [hp] at hf

theorem findCspToken_ne_empty (m t : String) (h : findCspToken m = some t) : t ≠ "" := by
  have := findCspToken_mem m t h
  fin_cases this <;> decide

theorem dedupFirstAux_append_singleton (xs : List String) (q : String) :
    ∀ (seen : List String), q ∉ xs → q ∉ seen →
    dedupFirstAux seen (xs ++ [q]) = dedupFirstAux seen xs ++ [q] := by
  induction xs with
  | nil =>
    intro seen _ hseen
    simp [dedupFirstAux, hseen]
  | cons x xs ih =>
    intro seen hq hseen
    have hqxs : q ∉ xs := fun hmem => hq (List.mem_cons_of_mem _ hmem)
    simp only [List.cons_append, dedupFirstAux]
    by_cases hc : x ∈ seen
    · have hcc : seen.contains x = true := by simpa using hc
      simp only [hcc, if_pos rfl]
      exact ih seen hqxs hseen
    · have hcc : seen.contains x = false := by simpa using hc
      have hqx : q ∉ (x :: seen) := by
        intro hmem
        rcases List.mem_cons.mp hmem with h1 | h2
        · exact hq (h1 ▸ List.mem_cons_self x xs)
        · exact hseen h2
      simp only [hcc, Bool.false_eq_true, if_false]
      have hcm : x ∉ seen := hc
      simp [hcm, ih (x :: seen) hqxs hqx]

theorem dedupFirst_append_singleton (xs : List String) (q : String) (hq : q ∉ xs) :
    dedupFirst (xs ++ [q]) = dedupFirst xs ++ [q] :=
  dedupFirstAux_append_singleton xs q [] hq (by simp)

theorem humanContents_append_human (pre : List HistEntry) (e : HistEntry)
    (he : e.role = "human") :
    humanContents (pre ++ [e]) = humanContents pre ++ [e.content.asString] := by
  simp [humanContents, List.filter_append, he]

theorem lookup_map_set_self (u : String) (c : Conversation) :
    ∀ (m : List (String × Conversation)), (∃ x ∈ m, x.1 = u) →
    (m.map (fun p => if p.1 = u then (u, c) else p)).lookup u = some c := by
  intro m
  induction m with
  | nil => rintro ⟨x, hx, -⟩; cases hx
  | cons p rest ih =>
    rintro ⟨x, hx, hxu⟩
    by_cases hp : p.1 = u
    · rw [List.map_cons, if_pos hp]
      simp [List.lookup]
    · have hrest : ∃ x ∈ rest, x.1 = u := by
        rcases List.mem_cons.mp hx with h1 | h2
        · exact absurd (h1 ▸ hxu) hp
        · exact ⟨x, h2, hxu⟩
      have hne : (u == p.1) = false := by
        simpa using fun h => hp h.symm
      rw [List.map_cons, if_neg hp]
      simp only [List.lookup, hne]
      exact ih hrest

theorem lookup_append_single_self (u : String) (c : Conversation) :
    ∀ (m : List (String × Conversation)), (∀ x ∈ m, ¬ x.1 = u) →
    (m ++ [(u, c)]).lookup u = some c := by
  intro m
  induction m with
  | nil => intro _; simp [List.lookup]
  | cons p rest ih =>
    intro hall
    have hp : ¬ p.1 = u := hall p (List.mem_cons_self _ _)
    have hne : (u == p.1) = false := by
      simpa using fun h => hp h.symm
    simp only [List.cons_append, List.lookup, hne]
    exact ih (fun x hx => hall x (List.mem_cons_of_mem _ hx))

theorem lookup_map_set_other (u v : String) (c : Conversation) (hvu : v ≠ u) :
    ∀ (m : List (String × Conversation)),
    (m.map (fun p => if p.1 = u then (u, c) else p)).lookup v = m.lookup v := by
  intro m
  induction m with
  | nil => rfl
  | cons p rest ih =>
    by_cases hp : p.1 = u
    · have hv : (v == u) = false := by simpa using hvu
      have hpv : (v == p.1) = false := by
        simpa using fun h => hvu (h.trans hp)
      rw [List.map_cons, if_pos hp]
      simp only [List.lookup, hv, hpv]
      exact ih
    · rw [List.map_cons, if_neg hp]
      simp only [List.lookup]
      cases hbe : (v == p.1) <;> simp [ih]

theorem lookup_append_single_other (u v : String) (c : Conversation) (hvu : v ≠ u) :
    ∀ (m : List (String × Conversation)),
    (m ++ [(u, c)]).lookup v = m.lookup v := by
  intro m
  induction m with
  | nil =>
    have hv : (v == u) = false := by simpa using hvu
    simp [List.lookup, hv]
  | cons p rest ih =>
    simp only [List.cons_append, List.lookup]
    cases hbe : (v == p.1) <;> simp [ih]

theorem setKey_lookup_self (m : List (String × Conversation)) (u : String)
    (c : Conversation) : (setKey m u c).lookup u = some c := by
  unfold setKey
  by_cases hm : m.any (fun p => p.1 = u) = true
  · have hex : ∃ x ∈ m, x.1 = u := by simpa using hm
    simp only [hm, if_pos rfl]
    exact lookup_map_set_self u c m hex
  · have hm' : m.any (fun p => p.1 = u) = false := Bool.eq_false_iff.mpr hm
    have hall : ∀ x ∈ m, ¬ x.1 = u := by
      intro x hx hxu
      exact hm (List.any_eq_true.mpr ⟨x, hx, by simpa using hxu⟩)
    simp only [hm', Bool.false_eq_true, if_false]
    exact lookup_append_single_self u c m hall

theorem setKey_lookup_other (m : List (String × Conversation)) (u v : String)
    (c : Conversation) (hvu : v ≠ u) : (setKey m u c).lookup v = m.lookup v := by
  unfold setKey
  by_cases hm : m.any (fun p => p.1 = u) = true
  · simp only [hm, if_pos rfl]
    exact lookup_map_set_other u v c hvu m
  · have hm' : m.any (fun p => p.1 = u) = false := Bool.eq_false_iff.mpr hm
    simp only [hm', Bool.false_eq_true, if_false]
    exact lookup_append_single_other u v c hvu m

theorem jsTruthyS_getD_ne (p : Option String) (hp : jsTruthyS p = true) :
    p.getD "" ≠ "" := by
  cases p with
  | none => simp [jsTruthyS] at hp
  | some s => simpa [jsTruthyS] using hp

/-! ## Claim theorems -/

/-- C1, counterexample: the claim asserts that a greeting-pattern message
takes a router path on which the `findAction` classification call is not
invoked.  The source has no such router: the message `hi` matches the
greeting pattern, yet its turn runs the workflow whose node sequence
contains `findAction`, and the reply for `hi` changes when only the
classification outcome changes — classification is consulted for the
greeting turn. -/
theorem c1_greeting_counterexample :
    matchesGreeting "hi" = true ∧
    "findAction" ∈ turnStages false ∧
    processMessage (some convA) "hi" none "t"
        { classify := .throws, synth := .parsed { answer := some "A" } } (some sd0) ≠
      processMessage (some convA) "hi" none "t"
        { classify := .parsed
            { action := some { actionType := "VIEW_CSP_OPTIONS",
                               payload := some ({} : ActionPayload) } },
          synth := .parsed { answer := some "A" } } (some sd0) :=
  ⟨by decide, by decide, by decide⟩

/-- C1, amended: `processMessage` contains no greeting router — for every
message matching the greeting pattern the turn (without form data) runs
the workflow, whose node sequence begins with the `findAction`
classification call. -/
theorem c1_no_greeting_router (m : String) (hm : matchesGreeting m = true) :
    "findAction" ∈ turnStages false ∧ turnStages false = workflowNodeSequence := by
  exact ⟨by decide, by decide⟩

/-- Witness for C1: the amended theorem applied to the greeting `hello`. -/
theorem c1_no_greeting_router_witness :
    matchesGreeting "hello" = true ∧
    ("findAction" ∈ turnStages false ∧ turnStages false = workflowNodeSequence) :=
  ⟨by decide, c1_no_greeting_router "hello" (by decide)⟩

/-- C4, the code evaluated at its failing input: an existing user sends
`history` (which matches the conversation-history intent pattern) while
the classifier output is unparseable, so the resolved action is the
`GENERAL_RESPONSE` fallback; the synthesizer re-entry then returns the
executor state, which carries no final response, and the caller receives
a null reply with no menu at all — contradicting the claim that every
final reply carries a freshly computed menu. -/
theorem c4_reentry_returns_no_reply :
    isConvHistoryQuery "history" = true ∧
    (processMessage (some convA) "history" none "t"
        { classify := .unparseable "x" } (some sd0)).1 = none :=
  ⟨by decide, by decide⟩

/-- C5: the per-turn context is resolved with the precedence: provider
token in the message text > truthy caller parameter (lowercased) >
truthy stored conversation context > the hard default `aws`. -/
theorem c5_csp_precedence :
    (∀ (m : String) (p : Option String) (c0 : Option Conversation) (t : String),
        findCspToken m = some t → resolveUserCSP m p c0 = t) ∧
    (∀ (m : String) (p : Option String) (c0 : Option Conversation),
        findCspToken m = none → jsTruthyS p = true →
        resolveUserCSP m p c0 = toLowerS (p.getD "")) ∧
    (∀ (m : String) (p : Option String) (c : Conversation),
        findCspToken m = none → jsTruthyS p = false → jsTruthyS c.csp = true →
        resolveUserCSP m p (some c) = c.csp.getD "") ∧
    (∀ (m : String) (p : Option String),
        findCspToken m = none → jsTruthyS p = false →
        resolveUserCSP m p none = "aws") ∧
    (∀ (m : String) (p : Option String) (c : Conversation),
        findCspToken m = none → jsTruthyS p = false → jsTruthyS c.csp = false →
        resolveUserCSP m p (some c) = "aws") := by
  refine ⟨?_, ?_, ?_, ?_, ?_⟩
  · intro m p c0 t ht
    have hne := findCspToken_ne_empty m t ht
    simp [resolveUserCSP, ht, hne]
  · intro m p c0 hm hp
    have h1 : p.getD "" ≠ "" := jsTruthyS_getD_ne p hp
    have h2 : toLowerS (p.getD "") ≠ "" := by
      rw [Ne, toLowerS_eq_empty_iff]; exact h1
    simp [resolveUserCSP, hm, hp, h2]
  · intro m p c hm hp hc
    have h1 : c.csp.getD "" ≠ "" := jsTruthyS_getD_ne c.csp hc
    cases hcs : c.csp with
    | none => rw [hcs] at hc; simp [jsTruthyS] at hc
    | some s =>
      rw [hcs] at h1
      have hts : jsTruthyS (some s) = true := hcs ▸ hc
      simp only [Option.getD_some] at h1
      simp [resolveUserCSP, hm, hp, jsOrOptS, hcs, hts, h1]
  · intro m p hm hp
    simp [resolveUserCSP, hm, hp]
  · intro m p c hm hp hc
    have hstored : jsOrOptS c.csp p = p := by
      simp [jsOrOptS, hc]
    cases hps : p with
    | none =>
      rw [hps] at hstored
      simp [resolveUserCSP, hm, hstored, jsTruthyS]
    | some s =>
      have hs : s = "" := by
        rw [hps] at hp; simpa [jsTruthyS] using hp
      rw [hps] at hstored
      rw [hs] at hstored
      simp [resolveUserCSP, hm, hstored, hs, jsTruthyS]

/-- Witness for C5: all five precedence cases at concrete inputs. -/
theorem c5_csp_precedence_witness :
    resolveUserCSP "use Azure please" (some "GCP") (some convA) = "azure" ∧
    resolveUserCSP "no token here" (some "GCP") (some convA) = "gcp" ∧
    resolveUserCSP "no token here" none (some convA) = "aws" ∧
    resolveUserCSP "no token here" none none = "aws" ∧
    resolveUserCSP "no token here" none (some { csp := none, history := [] }) = "aws" :=
  ⟨c5_csp_precedence.1 _ _ _ _ (by decide),
   c5_csp_precedence.2.1 _ _ _ (by decide) (by decide),
   c5_csp_precedence.2.2.1 _ _ _ (by decide) (by decide) (by decide),
   c5_csp_precedence.2.2.2.1 _ _ (by decide) (by decide),
   c5_csp_precedence.2.2.2.2 _ _ _ (by decide) (by decide) (by decide)⟩

/-- C8: for a user present in the durable collection, saving the loaded
record back unchanged leaves the stored record content-equal and every
other user record unchanged. -/
theorem c8_save_load_roundtrip (file : Option (List (String × Conversation)))
    (u : String) (c : Conversation)
    (h : getConversationByUserId file u = some c) :
    (saveUserConversation u c file).lookup u = some c ∧
    ∀ v, v ≠ u → (saveUserConversation u c file).lookup v =
      (loadAllConversationsFromFile file).lookup v := by
  refine ⟨setKey_lookup_self _ u c, fun v hv => setKey_lookup_other _ u v c hv⟩

/-- Witness for C8: a two-user collection; reloading and saving user
`u1` keeps both stored records unchanged. -/
theorem c8_save_load_roundtrip_witness :
    getConversationByUserId (some [("u1", convA), ("u2", { csp := some "gcp", history := [] })]) "u1" = some convA ∧
    ((saveUserConversation "u1" convA
        (some [("u1", convA), ("u2", { csp := some "gcp", history := [] })])).lookup "u1" = some convA ∧
     ∀ v, v ≠ "u1" →
       (saveUserConversation "u1" convA
         (some [("u1", convA), ("u2", { csp := some "gcp", history := [] })])).lookup v =
       (loadAllConversationsFromFile
         (some [("u1", convA), ("u2", { csp := some "gcp", history := [] })])).lookup v) :=
  ⟨by decide, c8_save_load_roundtrip _ "u1" convA (by decide)⟩

/-- C9: menu generation is deterministic and depends only on the stated
inputs; in particular, only the context-filtered slice of the catalog
matters, so two catalog snapshots agreeing on that slice produce the
same ordered option list. -/
theorem c9_menu_pure :
    (∀ (sd : Option ServicesData) (csp : String) (friendly : Bool),
        getMenuForCSP sd csp friendly = getMenuForCSP sd csp friendly) ∧
    (∀ (d1 d2 : ServicesData) (csp : String) (friendly : Bool),
        d1.list.filter (fun s => s.cloud = toLowerS csp) =
          d2.list.filter (fun s => s.cloud = toLowerS csp) →
        getMenuForCSP (some d1) csp friendly = getMenuForCSP (some d2) csp friendly) := by
  refine ⟨fun _ _ _ => rfl, fun d1 d2 csp friendly h => ?_⟩
  simp only [getMenuForCSP]
  rw [h]

/-- Witness for C9: two different catalog snapshots whose aws slices
agree produce the same aws menu. -/
theorem c9_menu_pure_witness :
    getMenuForCSP (some { list := [svcVM,
      { name := "Blob Storage", description := "b", cloud := "azure", requiredFields := [] }] }) "aws" true =
    getMenuForCSP (some sd0) "aws" true :=
  c9_menu_pure.2 _ sd0 "aws" true (by decide)


/-- C3: when the message matches the conversation-history intent pattern
and the resolved action is not already summarize-typed, the synthesizer
replaces the action with a `CONVERSATION_SUMMARY` action and re-runs the
executor exactly once, returning its output directly; on every input the
synthesizer performs at most one executor invocation, so the re-entry is
bounded and never recursive beyond one level. -/
theorem c3_summary_reentry_once (st : CloudState) (o : Oracle) (sd : Option ServicesData)
    (hq : isConvHistoryQuery st.query = true)
    (ha : ∀ a, st.action = some a → a.actionType ≠ "CONVERSATION_SUMMARY") :
    (generateUnifiedResponseI st o sd).2 = 1 ∧
    (generateUnifiedResponseI st o sd).1 =
      processAction { st with action := some (summaryAction st.query) } o sd ∧
    ∀ (st' : CloudState) (o' : Oracle) (sd' : Option ServicesData),
      (generateUnifiedResponseI st' o' sd').2 ≤ 1 := by
  have hcond : (isConvHistoryQuery st.query &&
      (match st.action with
       | none => true
       | some a => a.actionType != "CONVERSATION_SUMMARY")) = true := by
    rw [hq]
    cases hsa : st.action with
    | none => rfl
    | some a =>
      have := ha a hsa
      simpa using this
  refine ⟨?_, ?_, ?_⟩
  · simp [generateUnifiedResponseI, hcond]
  · simp [generateUnifiedResponseI, hcond]
  · intro st' o' sd'
    unfold generateUnifiedResponseI
    split <;> simp

/-- A state whose query matches the history pattern while the action is
the general fallback: the configuration that triggers the re-entry. -/
def stReentry : CloudState :=
  { conversationHistory := [humanTurn "history"], query := "history",
    action := some { actionType := "GENERAL_RESPONSE",
                     payload := some { message := some "history" } },
    csp := some "aws", response := none }

/-- Witness for C3: the re-entry theorem at the concrete state. -/
theorem c3_summary_reentry_once_witness :
    (generateUnifiedResponseI stReentry { classify := .throws } (some sd0)).2 = 1 ∧
    (generateUnifiedResponseI stReentry { classify := .throws } (some sd0)).1 =
      processAction { stReentry with action := some (summaryAction stReentry.query) }
        { classify := .throws } (some sd0) :=
  ⟨(c3_summary_reentry_once stReentry { classify := .throws } (some sd0) (by decide)
      (by intro a h; cases h; decide)).1,
   (c3_summary_reentry_once stReentry { classify := .throws } (some sd0) (by decide)
      (by intro a h; cases h; decide)).2.1⟩

/-- C6, counterexample: the claim asserts that classifier output which
parses but lacks the expected `action` property always yields the
`GENERAL_RESPONSE` fallback carrying the raw message.  A parsed
complete-reply shape (role `assistant`, workflow `conversationSummary`,
response object) has no `action` property, yet `findAction` converts it
into a `CONVERSATION_SUMMARY` action, not the fallback. -/
theorem c6_counterexample :
    ({ role := some "assistant", workflow := some "conversationSummary",
       response := some { message := some "x" } : ClassifyJson }).action = none ∧
    (findAction
      { conversationHistory := [], query := "hi there", action := none,
        csp := some "aws", response := none }
      (.parsed { role := some "assistant", workflow := some "conversationSummary",
                 response := some { message := some "x" } })).action.map
        (fun a => a.actionType) = some "CONVERSATION_SUMMARY" ∧
    (findAction
      { conversationHistory := [], query := "hi there", action := none,
        csp := some "aws", response := none }
      (.parsed { role := some "assistant", workflow := some "conversationSummary",
                 response := some { message := some "x" } })).action ≠
      some (fallbackGeneralAction "hi there") :=
  ⟨by decide, by decide, by decide⟩

/-- C6, amended: when the classification call throws, or its output is
unparseable, or it parses but has neither an `action` property nor the
complete-reply shape (role `assistant` with truthy workflow and a
response object), `findAction` returns the `GENERAL_RESPONSE` fallback
action carrying the raw user message; being a total function of the
modelled outcomes, it lets no exception escape. -/
theorem c6_classifier_fallback (st : CloudState) (o : ClassifyOutcome)
    (h : o = .throws ∨ (∃ raw, o = .unparseable raw) ∨
      ∃ j, o = .parsed j ∧ j.action = none ∧
        ¬(j.role = some "assistant" ∧ jsTruthyS j.workflow = true ∧
          j.response.isSome = true)) :
    (findAction st o).action = some (fallbackGeneralAction st.query) := by
  rcases h with rfl | ⟨raw, rfl⟩ | ⟨j, rfl, hact, hshape⟩
  · rfl
  · rfl
  · simp only [findAction]
    rw [if_neg hshape, if_neg (by simp [hact])]

/-- Witness for C6: the fallback theorem at a parsed object carrying
neither an action nor the complete-reply shape. -/
theorem c6_classifier_fallback_witness :
    (findAction
      { conversationHistory := [], query := "what is ec2", action := none,
        csp := some "aws", response := none }
      (.parsed { role := some "user" })).action =
      some (fallbackGeneralAction "what is ec2") :=
  c6_classifier_fallback _ _ (Or.inr (Or.inr ⟨_, rfl, rfl, by decide⟩))

/-- C7: the two catalog matchers implement different rules —
`findMatchingService` only returns entries whose normalized name equals
the normalized requested name (with equal lowercased cloud tags), while
`findMatchingServiceByName` returns entries whose normalized name merely
contains the normalized requested name; consequently the two disagree on
a concrete catalog and request. -/
theorem c7_matcher_divergence :
    (∀ (d : ServicesData) (a : Analysis) (e : ServiceConfig),
        findMatchingService (some d) (some a) = some e →
        ∃ s c, a.details.bind (fun dt => dt.service) = some s ∧ a.csp = some c ∧
          normalize e.name = normalize s ∧ toLowerS e.cloud = toLowerS c) ∧
    (∀ (d : ServicesData) (n : String) (copt : Option String) (e : ServiceConfig),
        findMatchingServiceByName (some d) n copt = some e →
        strIncludes (normalize e.name) (normalize n) = true ∧
        toLowerS e.cloud = (if jsTruthyS copt then normalize (copt.getD "") else "aws")) ∧
    (findMatchingService (some sd0)
        (some { details := some { service := some "machine" }, csp := some "aws" }) = none ∧
     findMatchingServiceByName (some sd0) "machine" (some "aws") = some svcVM) := by
  refine ⟨?_, ?_, by decide, by decide⟩
  · intro d a e h
    cases hs : a.details.bind (fun dt => dt.service) with
    | none =>
      rw [findMatchingService, hs] at h
      simp [jsTruthyS] at h
    | some s =>
      cases hc : a.csp with
      | none =>
        rw [findMatchingService, hs, hc] at h
        simp [jsTruthyS] at h
      | some c =>
        rw [findMatchingService, hs, hc] at h
        simp only [Option.map_some'] at h
        by_cases hcond : (jsTruthyS (some (normalize s)) = true ∧
            jsTruthyS (some (toLowerS c)) = true)
        · rw [if_pos hcond] at h
          have hpred := List.find?_some h
          simp only [Option.getD_some, decide_eq_true_eq] at hpred
          exact ⟨s, c, rfl, rfl, hpred.1, hpred.2⟩
        · rw [if_neg hcond] at h
          cases h
  · intro d n copt e h
    rw [findMatchingServiceByName] at h
    have hpred := List.find?_some h
    simp only [Bool.and_eq_true, decide_eq_true_eq] at hpred
    exact ⟨hpred.1, hpred.2⟩

/-- Witness for C7: both characterizations applied at the concrete
catalog (`svcVM` on aws) with concrete requests. -/
theorem c7_matcher_divergence_witness :
    (∃ s c, (some { service := some " Virtual  MACHINE " } : Option AnalysisDetails).bind
        (fun dt => dt.service) = some s ∧ (some "AWS" : Option String) = some c ∧
        normalize svcVM.name = normalize s ∧ toLowerS svcVM.cloud = toLowerS c) ∧
    (strIncludes (normalize svcVM.name) (normalize "machine") = true ∧
     toLowerS svcVM.cloud =
       (if jsTruthyS (some "aws") then normalize ((some "aws").getD "") else "aws")) :=
  ⟨c7_matcher_divergence.1 sd0
      { details := some { service := some " Virtual  MACHINE " }, csp := some "AWS" }
      svcVM (by decide),
   c7_matcher_divergence.2.1 sd0 "machine" (some "aws") svcVM (by decide)⟩


/-- C10: a `SELECT_CSP` action updates only the in-flight pipeline
state (its csp becomes the lowercased selection while the history is
untouched); `processMessage` never writes the updated csp back into the
stored conversation record, whose context field survives every turn
unchanged; hence a later turn that falls back to the stored context
resolves exactly as it would have before the selection turn. -/
theorem c10_select_csp_not_persisted :
    (∀ (st : CloudState) (payload : ActionPayload) (o : Oracle) (sd : Option ServicesData),
        st.action = some { actionType := "SELECT_CSP", payload := some payload } →
        jsTruthyS payload.csp = true →
        (processAction st o sd).toOption.map (fun s => (s.csp, s.conversationHistory)) =
          some (some (toLowerS (payload.csp.getD "")), st.conversationHistory)) ∧
    (∀ (c : Conversation) (m : String) (p : Option String) (ts : String)
        (o : Oracle) (sd : Option ServicesData),
        (processMessage (some c) m p ts o sd).2.csp = c.csp) ∧
    (∀ (c : Conversation) (m : String) (p : Option String) (ts : String)
        (o : Oracle) (sd : Option ServicesData) (m2 : String) (p2 : Option String),
        resolveUserCSP m2 p2 (some ((processMessage (some c) m p ts o sd).2)) =
          resolveUserCSP m2 p2 (some c)) := by
  have part2 : ∀ (c : Conversation) (m : String) (p : Option String) (ts : String)
      (o : Oracle) (sd : Option ServicesData),
      (processMessage (some c) m p ts o sd).2.csp = c.csp := by
    intro c m p ts o sd
    simp only [processMessage]
    split <;> rfl
  refine ⟨?_, part2, ?_⟩
  · intro st payload o sd ha hcsp
    unfold processAction
    rw [ha]
    unfold processActionCore
    simp only [String.reduceEq, reduceIte]
    rw [if_pos hcsp]
    by_cases hne : ("You have selected " ++ toUpperS (payload.csp.getD "") ++
        " as your Cloud Service Provider." : String) = ""
    · simp [hne]
      exact ⟨_, rfl, rfl, rfl⟩
    · simp [hne]
      exact ⟨_, rfl, rfl, rfl⟩
  · intro c m p ts o sd m2 p2
    simp only [resolveUserCSP]
    rw [part2 c m p ts o sd]

/-- Witness for C10: a turn whose classifier selects Azure leaves the
stored conversation context at aws, and the next turn resolves aws. -/
theorem c10_select_csp_not_persisted_witness :
    (processAction
        { conversationHistory := [humanTurn "switch"], query := "switch",
          action := some { actionType := "SELECT_CSP",
                           payload := some { csp := some "Azure" } },
          csp := some "aws", response := none }
        { classify := .throws } (some sd0)).toOption.map
        (fun s => (s.csp, s.conversationHistory)) =
      some (some (toLowerS ((some "Azure" : Option String).getD "")),
        [humanTurn "switch"]) ∧
    (processMessage (some convA) "switch" none "t"
      { classify := .parsed { action := some { actionType := "SELECT_CSP",
                                               payload := some { csp := some "Azure" } } } }
      (some sd0)).2.csp = some "aws" ∧
    resolveUserCSP "next message" none
      (some ((processMessage (some convA) "switch" none "t"
        { classify := .parsed { action := some { actionType := "SELECT_CSP",
                                                 payload := some { csp := some "Azure" } } } }
        (some sd0)).2)) = resolveUserCSP "next message" none (some convA) :=
  ⟨c10_select_csp_not_persisted.1 _ { csp := some "Azure" } { classify := .throws }
      (some sd0) rfl (by decide),
   c10_select_csp_not_persisted.2.1 convA "switch" none "t" _ (some sd0),
   c10_select_csp_not_persisted.2.2 convA "switch" none "t" _ (some sd0) "next message" none⟩


/-- C2, counterexample: the claim promises question count = N for N
unique human turns preceding the current one, regardless of duplicates.
With prior human turns `a`, `b` (N = 2) and current question `a`
(duplicating a prior turn), the executor dedups the whole history first
and then drops the *last deduplicated* entry, reporting count 1 and
previous questions `[a]` instead of 2 and `[a, b]`. -/
theorem c2_duplicate_current_counterexample :
    (dedupFirst (humanContents [humanTurn "a", assistantTurn, humanTurn "b", assistantTurn])).length = 2 ∧
    ((processAction
        { conversationHistory :=
            [humanTurn "a", assistantTurn, humanTurn "b", assistantTurn, humanTurn "a"],
          query := "a",
          action := some { actionType := "CONVERSATION_SUMMARY",
                           payload := some { message := some "what did I ask" } },
          csp := some "aws", response := none }
        { classify := .throws } (some sd0)).toOption.bind
        (fun s => s.response)).bind (fun r => r.questionCount) = some 1 ∧
    ((processAction
        { conversationHistory :=
            [humanTurn "a", assistantTurn, humanTurn "b", assistantTurn, humanTurn "a"],
          query := "a",
          action := some { actionType := "CONVERSATION_SUMMARY",
                           payload := some { message := some "what did I ask" } },
          csp := some "aws", response := none }
        { classify := .throws } (some sd0)).toOption.bind
        (fun s => s.response)).bind (fun r => r.previousQuestions) = some ["a"] :=
  ⟨by decide, by decide, by decide⟩

/-- C2, amended: executing a `CONVERSATION_SUMMARY` action with no count
in the payload and no pre-existing summary response yields question
count = N and the list of the N unique prior human turns (first
occurrences, in order, duplicates counted once by exact content
equality) — *provided the current question does not repeat an earlier
human turn*; the code dedups the entire history including the current
question and then drops the last deduplicated entry, so a current
question equal to a prior one makes it undercount by one (see the
counterexample). -/
theorem c2_summary_unique_count (st : CloudState) (payload : ActionPayload)
    (pre : List HistEntry) (e : HistEntry) (o : Oracle) (sd : Option ServicesData)
    (ha : st.action = some { actionType := "CONVERSATION_SUMMARY", payload := some payload })
    (hqc : payload.questionCount = none)
    (hr : st.response = none)
    (hh : st.conversationHistory = pre ++ [e])
    (he : e.role = "human")
    (hfresh : e.content.asString ∉ humanContents pre) :
    (processAction st o sd).toOption.map (fun s =>
        (s.response.bind (fun r => r.questionCount),
         s.response.bind (fun r => r.previousQuestions))) =
      some (some (dedupFirst (humanContents pre)).length,
            some (dedupFirst (humanContents pre))) := by
  have hdedup : dedupFirst (humanContents st.conversationHistory) =
      dedupFirst (humanContents pre) ++ [e.content.asString] := by
    rw [hh, humanContents_append_human pre e he,
        dedupFirst_append_singleton _ _ hfresh]
  unfold processAction
  rw [ha]
  unfold processActionCore
  simp only [String.reduceEq, reduceIte]
  unfold processSummaryBranch
  simp only [hr, hdedup, List.dropLast_concat, hqc, jsOrN, jsTruthyN,
    Bool.false_eq_true, if_false]
  split_ifs <;> rfl

/-- Witness for C2: three distinct prior human turns and a fresh current
question give count 3 and the three prior questions in order. -/
theorem c2_summary_unique_count_witness :
    (processAction
        { conversationHistory :=
            [humanTurn "q1", assistantTurn, humanTurn "q2", assistantTurn,
             humanTurn "q1", humanTurn "q3", humanTurn "current"],
          query := "current",
          action := some { actionType := "CONVERSATION_SUMMARY",
                           payload := some { message := some "show my questions" } },
          csp := some "aws", response := none }
        { classify := .throws } (some sd0)).toOption.map (fun s =>
        (s.response.bind (fun r => r.questionCount),
         s.response.bind (fun r => r.previousQuestions))) =
      some (some (dedupFirst (humanContents
              [humanTurn "q1", assistantTurn, humanTurn "q2", assistantTurn,
               humanTurn "q1", humanTurn "q3"])).length,
            some (dedupFirst (humanContents
              [humanTurn "q1", assistantTurn, humanTurn "q2", assistantTurn,
               humanTurn "q1", humanTurn "q3"]))) :=
  c2_summary_unique_count _ { message := some "show my questions" }
    [humanTurn "q1", assistantTurn, humanTurn "q2", assistantTurn,
     humanTurn "q1", humanTurn "q3"]
    (humanTurn "current") { classify := .throws } (some sd0)
    rfl rfl rfl rfl rfl (by decide)

end AgentService